import Mathlib

/-!
Verification of the VIX strategy contract-selection and position-lifecycle
pipeline (files src/vix_strategy_data_fetcher.py and src/final_vix_strategy.py).

Conventions of the shallow embedding:
- Calendar dates are modelled by their proleptic Gregorian ordinal (the value
  returned by the Python method date.toordinal), an integer; adding a timedelta
  of n days is integer addition of n.
- A machine float that may be NaN is modelled as an Option over the rationals:
  none stands for NaN (unknown), some x for the known value x.  Float rounding
  is idealised away: arithmetic is exact rational arithmetic.
- A pandas DataFrame is modelled as a list of records in row order; groupby
  sorts the group keys ascending and preserves row order inside a group;
  Series.idxmin returns the first row attaining the minimum.
-/

namespace BloombergData

/-! ## Calendar model -/

/-- Ordinal (Python date.toordinal) of the first day of month m of year y,
computed by the standard civil-from-days algorithm restricted to day 1.
Anchored below: the ordinal of 1970-01-01 is 719163, a Thursday. -/
def monthStartOrdinal (y m : Int) : Int :=
  let yy := if m ≤ 2 then y - 1 else y
  let era := (if 0 ≤ yy then yy else yy - 399) / 400
  let yoe := yy - era * 400
  let mp := (m + 9) % 12
  let doy := (153 * mp + 2) / 5
  let doe := yoe * 365 + yoe / 4 - yoe / 100 + doy
  era * 146097 + doe - 719468 + 719163

/-- Ordinal of day d of month m of year y; days within a month are consecutive
ordinals. -/
def toordinal (y m d : Int) : Int :=
  monthStartOrdinal y m + (d - 1)

/-- Python date.weekday on ordinals: Monday is 0, Wednesday is 2.
Ordinal 1 (0001-01-01) is a Monday. -/
def pyWeekday (n : Int) : Int :=
  (n - 1) % 7

/-- days_to_first_wed = (2 - first_weekday) % 7, from get_vix_expiry_calendar
in both source files.  Python % on a positive divisor is Int.emod. -/
def daysToFirstWed (y m : Int) : Int :=
  (2 - pyWeekday (monthStartOrdinal y m)) % 7

/-- third_wed = first_wed + 14 days, as an ordinal. -/
def thirdWedOrdinal (y m : Int) : Int :=
  monthStartOrdinal y m + daysToFirstWed y m + 14

/-- Day-of-month of the generated expiry: the first of the month is day 1. -/
def thirdWedDom (y m : Int) : Int :=
  1 + daysToFirstWed y m + 14

/-- One entry of the expiry calendar produced by get_vix_expiry_calendar. -/
structure ExpiryEntry where
  expiry_date : Int
  year : Int
  month : Int
deriving DecidableEq

/-- The month-advancing loop of get_vix_expiry_calendar: starting from
(y, m) it emits one entry per month while the first of the month is at or
before the stop ordinal (self.end_date + 90 days in the source).  The loop
in the source is unbounded; fuel bounds the recursion and any sufficiently
large fuel reproduces the source loop. -/
def get_vix_expiry_calendar : Nat → Int → Int → Int → List ExpiryEntry
  | 0, _, _, _ => []
  | fuel+1, y, m, stop =>
    if toordinal y m 1 ≤ stop then
      { expiry_date := thirdWedOrdinal y m, year := y, month := m } ::
        (if m = 12 then get_vix_expiry_calendar fuel (y+1) 1 stop
         else get_vix_expiry_calendar fuel y (m+1) stop)
    else []

/-! ## Quote rows and the target-delta selectors -/

/-- One row of an options DataFrame as fetched from the gateway.
Fields that a float column may leave NaN are Option: none is NaN.
In vix_strategy_data_fetcher the mid column is the raw PX_MID field;
in final_vix_strategy the mid column is computed from bid/ask/last
(see finalMid below). -/
structure Quote where
  ticker : String
  date : Int
  expiry_date : Int
  strike : ℚ
  last : Option ℚ
  bid : Option ℚ
  ask : Option ℚ
  mid : Option ℚ
  volume : Option ℚ
  delta : Option ℚ
deriving DecidableEq

/-- The mid column stored by final_vix_strategy.get_current_option_data_with_greeks:
(bid + ask) / 2 when both are known, otherwise the last price (possibly NaN). -/
def finalMid (q : Quote) : Option ℚ :=
  match q.bid, q.ask with
  | some b, some a => some ((b + a) / 2)
  | _, _ => q.last

/-- The valid_options filter of FinalVIXStrategy.identify_target_delta_options:
delta notna and delta > 0 and volume.fillna(0) > 0 and mid notna and mid > 0,
where the mid column of that file is finalMid. -/
def isValidOption (q : Quote) : Bool :=
  (match q.delta with | some d => decide (0 < d) | none => false)
  && decide (0 < q.volume.getD 0)
  && (match finalMid q with | some p => decide (0 < p) | none => false)

/-- The row filter used inside VIXStrategyDataFetcher.identify_target_delta_options:
delta notna and delta > 0 and volume.fillna(0) > 0.  No price condition. -/
def fetcherEligible (q : Quote) : Bool :=
  (match q.delta with | some d => decide (0 < d) | none => false)
  && decide (0 < q.volume.getD 0)

/-- Series.idxmin over a list of rows: the first row attaining the minimal
key, none on an empty list. -/
def idxmin {α : Type} (f : α → ℚ) : List α → Option α
  | [] => none
  | x :: xs =>
    match idxmin f xs with
    | none => some x
    | some y => if f y < f x then some y else some x

/-- The minimum of a column, none when the column is empty
(pandas Series.min, used for first_valid_date). -/
def colMin (l : List Int) : Option Int :=
  l.foldl (fun acc d => match acc with
    | none => some d
    | some m => some (min m d)) none

/-- Deterministic insertion of an integer into a sorted list. -/
def insertSorted (x : Int) : List Int → List Int
  | [] => [x]
  | y :: ys => if x ≤ y then x :: y :: ys else y :: insertSorted x ys

/-- Ascending sort of group keys, as pandas groupby orders its groups. -/
def sortInts (l : List Int) : List Int :=
  l.foldr insertSorted []

/-- Removal of duplicate group keys. -/
def dedupInts : List Int → List Int
  | [] => []
  | x :: xs => if x ∈ dedupInts xs then dedupInts xs else x :: dedupInts xs

/-- The distinct group keys of a groupby, ascending, each key once. -/
def sortedKeys (l : List Int) : List Int :=
  sortInts (dedupInts l)

/-- The quantities dictionary of FinalVIXStrategy: SHORT 1x at 50 delta,
LONG 2x at 10 delta. -/
def quantities (t : Nat) : Int :=
  if t = 50 then -1 else if t = 10 then 2 else 0

/-- One selected position of FinalVIXStrategy.identify_target_delta_options. -/
structure Position where
  ticker : String
  expiry_date : Int
  target_delta : Nat
  actual_delta : ℚ
  delta_error : ℚ
  strike : ℚ
  entry_price : Option ℚ
  quantity : Int
  position_type : String
  entry_date : Int
deriving DecidableEq

/-- The position_info record built for the row chosen for one target delta
(final_vix_strategy).  On a chosen row the delta is known, so reading the
delta column is getD 0. -/
def mkPosition (q : Quote) (t : Nat) : Position :=
  { ticker := q.ticker
    expiry_date := q.expiry_date
    target_delta := t
    actual_delta := q.delta.getD 0
    delta_error := |q.delta.getD 0 - (t : ℚ) / 100|
    strike := q.strike
    entry_price := finalMid q
    quantity := quantities t
    position_type := if t = 50 then "SHORT" else "LONG"
    entry_date := q.date }

/-- Leg selection of final_vix_strategy for one expiry group g (rows already
filtered by isValidOption) and one target delta t (in percent): minimise
|delta - t/100| (first row on ties, as idxmin does) and accept only when the
minimal difference is strictly below 0.05. -/
def selectLegFinal (g : List Quote) (t : Nat) : Option Position :=
  match idxmin (fun q => |q.delta.getD 0 - (t : ℚ) / 100|) g with
  | none => none
  | some q =>
    if |q.delta.getD 0 - (t : ℚ) / 100| < 5 / 100 then some (mkPosition q t)
    else none

/-- The expiry_positions collection of final_vix_strategy for one expiry
group: the resolved legs over target_deltas = [10, 50], in that order. -/
def legsFinal (g : List Quote) : List Position :=
  ([10, 50] : List Nat).filterMap (selectLegFinal g)

/-- Per-expiry emission of final_vix_strategy: the resolved legs are emitted
only when both configured targets resolved (len(expiry_positions) == 2). -/
def processExpiryFinal (g : List Quote) : List Position :=
  if (legsFinal g).length = 2 then legsFinal g else []

/-- The valid_options DataFrame of FinalVIXStrategy.identify_target_delta_options. -/
def validOptions (rows : List Quote) : List Quote :=
  rows.filter isValidOption

/-- FinalVIXStrategy.identify_target_delta_options: filter valid rows, group
by expiry date, and per expiry emit either both legs or nothing. -/
def identify_target_delta_options_final (rows : List Quote) : List Position :=
  (sortedKeys ((validOptions rows).map (fun q => q.expiry_date))).flatMap
    (fun k => processExpiryFinal ((validOptions rows).filter (fun q => q.expiry_date == k)))

/-! ## The data-fetcher selector, manifest builder and position tracker
(vix_strategy_data_fetcher.py) -/

/-- One row of the target_delta_df returned by
VIXStrategyDataFetcher.identify_target_delta_options: a copy of the chosen
quote row plus the keys added by the selector.  The mid and last fields model
Python dict entries: the outer Option is key presence (none = key absent),
the inner Option is NaN-ness of the stored float.  Rows built by the fetch
extraction always carry both keys (see mkSelRow). -/
structure SelRow where
  ticker : String
  date : Int
  expiry_date : Int
  strike : ℚ
  delta : Option ℚ
  mid : Option (Option ℚ)
  last : Option (Option ℚ)
  target_delta : Nat
  delta_error : ℚ
  position_type : String
  quantity : Int
  entry_date : Int
  strategy_leg : String
deriving DecidableEq

/-- The option_row built for a chosen entry row q, target delta t (percent)
and entry date d0 in VIXStrategyDataFetcher.identify_target_delta_options.
The copied row keeps every key the fetch extraction wrote, so the mid and
last dict keys are present (some), holding the possibly-NaN column values. -/
def mkSelRow (q : Quote) (t : Nat) (d0 : Int) : SelRow :=
  { ticker := q.ticker
    date := q.date
    expiry_date := q.expiry_date
    strike := q.strike
    delta := q.delta
    mid := some q.mid
    last := some q.last
    target_delta := t
    delta_error := |q.delta.getD 0 - (t : ℚ) / 100|
    position_type := if t = 50 then "SHORT" else "LONG"
    quantity := if t = 50 then -1 else 2
    entry_date := d0
    strategy_leg := toString t ++ "delta_" ++ (if t = 50 then "short" else "long") }

/-- The entry_options rows of one expiry group in
VIXStrategyDataFetcher.identify_target_delta_options: the eligible rows of
the entry date d0. -/
def entryRows (g : List Quote) (d0 : Int) : List Quote :=
  g.filter (fun q => q.date == d0 && fetcherEligible q)

/-- Leg selection of the data fetcher on the entry rows of one expiry group
for one target delta. -/
def selectLegFetcher (g : List Quote) (d0 : Int) (t : Nat) : Option SelRow :=
  match idxmin (fun q => |q.delta.getD 0 - (t : ℚ) / 100|) (entryRows g d0) with
  | none => none
  | some q =>
    if |q.delta.getD 0 - (t : ℚ) / 100| < 5 / 100 then some (mkSelRow q t d0)
    else none

/-- Body of the per-expiry loop of
VIXStrategyDataFetcher.identify_target_delta_options on one expiry group g:
first_valid_date is the minimum date among rows passing fetcherEligible; the
entry rows are the eligible rows of that date; for each target delta the row
with minimal |delta - t/100| is taken (first on ties) and kept when the
difference is strictly below 0.05.  Every kept row is appended to the
output; the both-legs check in the source only drives logging, never
emission. -/
def processExpiryFetcher (g : List Quote) : List SelRow :=
  match colMin ((g.filter fetcherEligible).map (fun q => q.date)) with
  | none => []
  | some d0 =>
    if (entryRows g d0).isEmpty then []
    else ([10, 50] : List Nat).filterMap (selectLegFetcher g d0)

/-- VIXStrategyDataFetcher.identify_target_delta_options: group the options
DataFrame by expiry date and run the per-expiry body on each group. -/
def identify_target_delta_options_fetcher (rows : List Quote) : List SelRow :=
  (sortedKeys (rows.map (fun q => q.expiry_date))).flatMap
    (fun k => processExpiryFetcher (rows.filter (fun q => q.expiry_date == k)))

/-- One row of the position tracking manifest
(VIXStrategyDataFetcher.create_position_tracking_manifest). -/
structure ManifestEntry where
  ticker : String
  target_delta : Nat
  position_type : String
  quantity : Int
  entry_date : Int
  expiry_date : Int
  roll_date : Int
  strike : ℚ
  entry_delta : Option ℚ
  entry_price : Option ℚ
deriving DecidableEq

/-- The state a VIXStrategyDataFetcher instance reads from the environment:
the wall clock sampled at construction (self.end_date = datetime.now()).
The manifest builder receives it through self but the entries it builds do
not read it; the CSV write it also performs is out-of-scope I/O. -/
structure RunCtx where
  now : Int
deriving DecidableEq

/-- The position_info record built from one selection row: roll_date is the
expiry date minus one day, and entry_price is row.get(mid, row.get(last, NaN))
with Python dict-get semantics (the default is used only when the key is
absent). -/
def entryOfRow (r : SelRow) : ManifestEntry :=
  { ticker := r.ticker
    target_delta := r.target_delta
    position_type := r.position_type
    quantity := r.quantity
    entry_date := r.entry_date
    expiry_date := r.expiry_date
    roll_date := r.expiry_date - 1
    strike := r.strike
    entry_delta := r.delta
    entry_price := r.mid.getD (r.last.getD none) }

/-- VIXStrategyDataFetcher.create_position_tracking_manifest: one manifest
entry per selection row, in row order. -/
def create_position_tracking_manifest (ctx : RunCtx) (rows : List SelRow) :
    List ManifestEntry :=
  let _ := ctx
  rows.map entryOfRow

/-- NaN-propagating subtraction on float columns. -/
def osub (a b : Option ℚ) : Option ℚ :=
  match a, b with
  | some x, some y => some (x - y)
  | _, _ => none

/-- One row of the active_positions DataFrame returned by
VIXStrategyDataFetcher.track_specific_positions. -/
structure DailyRec where
  ticker : String
  date : Int
  mid : Option ℚ
  delta : Option ℚ
  target_delta : Nat
  position_type : String
  quantity : Int
  entry_date : Int
  roll_date : Int
  entry_price : Option ℚ
  entry_delta : Option ℚ
  price_change : Option ℚ
  daily_pnl : Option ℚ
  delta_change : Option ℚ
deriving DecidableEq

/-- The merged-and-computed daily record for one quote row q joined with one
manifest entry e: price_change = mid - entry_price, daily_pnl = price_change
* quantity * 100 (the hard-coded VIX option multiplier), delta_change =
delta - entry_delta, all NaN-propagating. -/
def mkDailyRec (q : Quote) (e : ManifestEntry) : DailyRec :=
  { ticker := q.ticker
    date := q.date
    mid := q.mid
    delta := q.delta
    target_delta := e.target_delta
    position_type := e.position_type
    quantity := e.quantity
    entry_date := e.entry_date
    roll_date := e.roll_date
    entry_price := e.entry_price
    entry_delta := e.entry_delta
    price_change := osub q.mid e.entry_price
    daily_pnl := (osub q.mid e.entry_price).map (fun x => x * (e.quantity : ℚ) * 100)
    delta_change := osub q.delta e.entry_delta }

/-- VIXStrategyDataFetcher.track_specific_positions: left-merge the fetched
quote rows with the manifest on ticker (a quote row pairs with every manifest
entry of its ticker; a row with no match gets NaN dates and is dropped by the
date filter, hence the plain join here), keep the rows with entry_date <=
date <= roll_date, and compute the derived columns. -/
def track_specific_positions (manifest : List ManifestEntry)
    (quotes : List Quote) : List DailyRec :=
  ((quotes.flatMap (fun q =>
      (manifest.filter (fun e => e.ticker == q.ticker)).map (fun e => (q, e)))).filter
    (fun p => decide (p.2.entry_date ≤ p.1.date) && decide (p.1.date ≤ p.2.roll_date))).map
    (fun p => mkDailyRec p.1 p.2)

/-! ## Concrete inputs used by witnesses and counterexamples -/

/-- A chain with a single eligible snapshot: delta 0.48, volume 5, price 2.
Only the 50-delta leg resolves on it (the 10-delta difference is 0.38). -/
def qEx48 : Quote :=
  { ticker := "VIX 250820C20 A", date := 10, expiry_date := 100, strike := 20,
    last := some 2, bid := none, ask := none, mid := some 2,
    volume := some 5, delta := some (12/25) }

/-- An eligible snapshot whose delta difference to the 50-delta target is
exactly 0.05: delta 0.55, volume 1, bid 1 / ask 3 so the computed mid is 2. -/
def qTol55 : Quote :=
  { ticker := "VIX 250820C25 B", date := 10, expiry_date := 100, strike := 25,
    last := none, bid := some 1, ask := some 3, mid := none,
    volume := some 1, delta := some (11/20) }

/-- Eligible snapshot at strike 20 with delta 0.48 (difference 0.02 to the
50-delta target). -/
def qTie20 : Quote :=
  { ticker := "VIX 250820C20 C", date := 10, expiry_date := 100, strike := 20,
    last := none, bid := some 1, ask := some 3, mid := none,
    volume := some 1, delta := some (12/25) }

/-- Eligible snapshot at the lower strike 18 with delta 0.52 (also at
difference 0.02 to the 50-delta target, equidistant with qTie20). -/
def qTie18 : Quote :=
  { ticker := "VIX 250820C18 D", date := 10, expiry_date := 100, strike := 18,
    last := none, bid := some 1, ask := some 3, mid := none,
    volume := some 1, delta := some (13/25) }

/-- A snapshot with known positive delta and volume but fully unknown price:
mid, last, bid and ask all NaN or absent. -/
def qNoPrice : Quote :=
  { ticker := "VIX 250820C20 NP", date := 10, expiry_date := 100, strike := 20,
    last := none, bid := none, ask := none, mid := none,
    volume := some 3, delta := some (1/2) }

/-- A snapshot whose raw mid column is NaN while the last price is known. -/
def qMidNaN : Quote :=
  { ticker := "VIX 250820C22 MN", date := 10, expiry_date := 100, strike := 22,
    last := some 5, bid := none, ask := none, mid := none,
    volume := some 2, delta := some (1/2) }

/-- The chain of spec scenario 2: deltas [0.08, 0.11, 0.48, 0.53, 0.92] at
strikes [30, 25, 20, 18, 12], all rows eligible with volume 1 and computed
mid 2. -/
def chainQ1 : Quote :=
  { ticker := "VIX C30", date := 10, expiry_date := 100, strike := 30,
    last := none, bid := some 1, ask := some 3, mid := none,
    volume := some 1, delta := some (2/25) }

/-- Second row of the scenario chain: strike 25, delta 0.11. -/
def chainQ2 : Quote :=
  { ticker := "VIX C25", date := 10, expiry_date := 100, strike := 25,
    last := none, bid := some 1, ask := some 3, mid := none,
    volume := some 1, delta := some (11/100) }

/-- Third row of the scenario chain: strike 20, delta 0.48. -/
def chainQ3 : Quote :=
  { ticker := "VIX C20", date := 10, expiry_date := 100, strike := 20,
    last := none, bid := some 1, ask := some 3, mid := none,
    volume := some 1, delta := some (12/25) }

/-- Fourth row of the scenario chain: strike 18, delta 0.53. -/
def chainQ4 : Quote :=
  { ticker := "VIX C18", date := 10, expiry_date := 100, strike := 18,
    last := none, bid := some 1, ask := some 3, mid := none,
    volume := some 1, delta := some (53/100) }

/-- Fifth row of the scenario chain: strike 12, delta 0.92. -/
def chainQ5 : Quote :=
  { ticker := "VIX C12", date := 10, expiry_date := 100, strike := 12,
    last := none, bid := some 1, ask := some 3, mid := none,
    volume := some 1, delta := some (23/25) }

/-- The scenario-2 chain in DataFrame row order. -/
def chain5 : List Quote := [chainQ1, chainQ2, chainQ3, chainQ4, chainQ5]

/-- A manifest entry for the P and L scenario of the spec: entry price 18.50,
quantity -1, held over days 0 to 10. -/
def e0 : ManifestEntry :=
  { ticker := "VIX 1", target_delta := 50, position_type := "SHORT",
    quantity := -1, entry_date := 0, expiry_date := 11, roll_date := 10,
    strike := 20, entry_delta := some (1/2), entry_price := some (37/2) }

/-- A later quote for that position: mid 16.00 on day 5, delta 0.40. -/
def q0 : Quote :=
  { ticker := "VIX 1", date := 5, expiry_date := 11, strike := 20,
    last := none, bid := none, ask := none, mid := some 16,
    volume := some 1, delta := some (2/5) }

/-- A concrete selection row: the 50-delta selection of qEx48 entered on
day 10 (expiry ordinal 100, roll 99). -/
def sr0 : SelRow := mkSelRow qEx48 50 10

/-- A selection-row literal whose mid key is absent and whose last price is
known, exercising the dict-get fallback in the manifest builder. -/
def srAbsentMid : SelRow :=
  { ticker := "VIX X", date := 0, expiry_date := 100, strike := 20,
    delta := some (1/2), mid := none, last := some (some 7),
    target_delta := 50, delta_error := 0, position_type := "SHORT",
    quantity := -1, entry_date := 0, strategy_leg := "50delta_short" }

/-- A run context with the clock at ordinal 0. -/
def ctx0 : RunCtx := { now := 0 }

/-- A quote inside the holding window of sr0: day 50 for the same ticker. -/
def qW : Quote :=
  { ticker := "VIX 250820C20 A", date := 50, expiry_date := 100, strike := 20,
    last := none, bid := none, ask := none, mid := some 3,
    volume := some 1, delta := some (9/20) }

/-- The August 2025 entry of the expiry calendar. -/
def e2025aug : ExpiryEntry :=
  { expiry_date := thirdWedOrdinal 2025 8, year := 2025, month := 8 }

/-! ## Helper lemmas -/

/-- Anchor: the ordinal of 1970-01-01 is 719163 and that day is a Thursday
(Python weekday 3), fixing the ordinal scale and weekday convention. -/
theorem toordinal_epoch_anchor :
    toordinal 1970 1 1 = 719163 ∧ pyWeekday (toordinal 1970 1 1) = 3 := by
  decide

/-- Anchor: 2025-08-01 has ordinal 739464 and is a Friday. -/
theorem toordinal_aug2025_anchor :
    toordinal 2025 8 1 = 739464 ∧ pyWeekday (toordinal 2025 8 1) = 4 := by
  decide

/-- The generated expiry ordinal is the first-of-month ordinal plus the
day-of-month offset. -/
theorem thirdWed_eq_toordinal (y m : Int) :
    thirdWedOrdinal y m = toordinal y m (thirdWedDom y m) := by
  simp only [toordinal, thirdWedOrdinal, thirdWedDom]
  omega

/-- The generated expiry always falls on a Wednesday (Python weekday 2). -/
theorem pyWeekday_thirdWed (y m : Int) : pyWeekday (thirdWedOrdinal y m) = 2 := by
  simp only [pyWeekday, thirdWedOrdinal, daysToFirstWed]
  generalize monthStartOrdinal y m = f
  omega

/-- The day-of-month of the generated expiry lies in [15, 21]. -/
theorem thirdWedDom_bounds (y m : Int) :
    15 ≤ thirdWedDom y m ∧ thirdWedDom y m ≤ 21 := by
  simp only [thirdWedDom, daysToFirstWed, pyWeekday]
  generalize monthStartOrdinal y m = f
  omega

/-- Every calendar entry records the third-Wednesday ordinal of its own
year and month. -/
theorem calendar_entry_expiry :
    ∀ (fuel : Nat) (y m stop : Int) (e : ExpiryEntry),
      e ∈ get_vix_expiry_calendar fuel y m stop →
      e.expiry_date = thirdWedOrdinal e.year e.month := by
  intro fuel
  induction fuel with
  | zero => intro y m stop e h; simp [get_vix_expiry_calendar] at h
  | succ n ih =>
    intro y m stop e h
    unfold get_vix_expiry_calendar at h
    split at h
    · rcases List.mem_cons.mp h with rfl | h2
      · rfl
      · split at h2
        · exact ih _ _ _ _ h2
        · exact ih _ _ _ _ h2
    · simp at h

/-- A resolved leg of the final selector satisfies the strict tolerance and
records its own delta error consistently. -/
theorem selectLegFinal_some {g : List Quote} {t : Nat} {p : Position}
    (h : selectLegFinal g t = some p) :
    p.delta_error < 5 / 100 ∧
    p.delta_error = |p.actual_delta - (p.target_delta : ℚ) / 100| ∧
    p.target_delta = t := by
  unfold selectLegFinal at h
  split at h
  · exact absurd h (by simp)
  · split at h
    · rename_i q hq hg
      injection h with h
      subst h
      exact ⟨hg, rfl, rfl⟩
    · exact absurd h (by simp)

/-- Any position emitted per-expiry by the final selector comes from a
resolved leg for one of the configured targets, and a cycle is emitted only
when both configured legs resolve. -/
theorem mem_processExpiryFinal {g : List Quote} {p : Position}
    (h : p ∈ processExpiryFinal g) :
    ∃ t, t ∈ ([10, 50] : List Nat) ∧ selectLegFinal g t = some p := by
  unfold processExpiryFinal legsFinal at h
  split at h
  · rcases List.mem_filterMap.mp h with ⟨t, ht, hsel⟩
    exact ⟨t, ht, hsel⟩
  · simp at h

/-- Any position emitted by the final selector comes from a resolved leg of
some expiry group for one of the configured targets. -/
theorem mem_identifyFinal {rows : List Quote} {p : Position}
    (h : p ∈ identify_target_delta_options_final rows) :
    ∃ g t, t ∈ ([10, 50] : List Nat) ∧ selectLegFinal g t = some p := by
  unfold identify_target_delta_options_final at h
  rcases List.mem_flatMap.mp h with ⟨k, _, hp⟩
  rcases mem_processExpiryFinal hp with ⟨t, ht, hsel⟩
  exact ⟨_, t, ht, hsel⟩

/-- Any selection row emitted per-expiry by the data-fetcher selector has a
delta error strictly below the tolerance. -/
theorem mem_processExpiryFetcher {g : List Quote} {r : SelRow}
    (h : r ∈ processExpiryFetcher g) : r.delta_error < 5 / 100 := by
  unfold processExpiryFetcher at h
  split at h
  · simp at h
  · split at h
    · simp at h
    · rcases List.mem_filterMap.mp h with ⟨t, _, heq⟩
      unfold selectLegFetcher at heq
      split at heq
      · exact absurd heq (by simp)
      · split at heq
        · rename_i q hq hg
          injection heq with heq
          subst heq
          exact hg
        · exact absurd heq (by simp)

/-- Any selection row emitted by the data-fetcher selector has a delta error
strictly below the tolerance. -/
theorem mem_identifyFetcher {rows : List Quote} {r : SelRow}
    (h : r ∈ identify_target_delta_options_fetcher rows) :
    r.delta_error < 5 / 100 := by
  unfold identify_target_delta_options_fetcher at h
  rcases List.mem_flatMap.mp h with ⟨k, _, hr⟩
  exact mem_processExpiryFetcher hr

/-- Characterisation of the tracker output: a daily record is exactly the
computed join of a fetched quote row with a manifest entry of the same
ticker whose holding window contains the quote date. -/
theorem mem_track_iff {m : List ManifestEntry} {qs : List Quote} {r : DailyRec} :
    r ∈ track_specific_positions m qs ↔
    ∃ q, q ∈ qs ∧ ∃ e, e ∈ m ∧ e.ticker = q.ticker ∧
      e.entry_date ≤ q.date ∧ q.date ≤ e.roll_date ∧ r = mkDailyRec q e := by
  unfold track_specific_positions
  simp only [List.mem_map, List.mem_filter, List.mem_flatMap, Bool.and_eq_true,
    decide_eq_true_eq, beq_iff_eq, Prod.exists, Prod.mk.injEq]
  constructor
  · rintro ⟨a, b, ⟨⟨q, hq, e, ⟨he, ht⟩, rfl, rfl⟩, h1, h2⟩, rfl⟩
    exact ⟨q, hq, e, he, ht, h1, h2, rfl⟩
  · rintro ⟨q, hq, e, he, ht, h1, h2, rfl⟩
    exact ⟨q, e, ⟨⟨q, hq, e, ⟨he, ht⟩, rfl, rfl⟩, h1, h2⟩, rfl⟩

/-- Every manifest entry sets roll_date to its expiry date minus one day. -/
theorem manifest_roll_date {ctx : RunCtx} {rows : List SelRow} {e : ManifestEntry}
    (h : e ∈ create_position_tracking_manifest ctx rows) :
    e.roll_date = e.expiry_date - 1 := by
  unfold create_position_tracking_manifest at h
  rcases List.mem_map.mp h with ⟨r, _, rfl⟩
  rfl

/-! ## Claim theorems -/

/-- C1: on a chain whose only snapshot resolves the 50-delta leg while the
10-delta leg fails, the selector of vix_strategy_data_fetcher still emits
that single 50-delta position (its both-legs check only drives logging), so
a one-legged position reaches the output; the selector of
final_vix_strategy discards the whole expiry on the same input, which is
the behaviour the claim states. -/
theorem C1_one_legged_cycle_emitted :
    (identify_target_delta_options_fetcher [qEx48]).map (fun r => r.target_delta) = [50]
    ∧ identify_target_delta_options_final [qEx48] = [] := by
  constructor
  · norm_num [identify_target_delta_options_fetcher, processExpiryFetcher,
      selectLegFetcher, entryRows, colMin, idxmin, sortedKeys, sortInts,
      insertSorted, dedupInts, fetcherEligible, mkSelRow, qEx48, abs, max_def,
      List.filterMap_cons]
  · have h10 : selectLegFinal [qEx48] 10 = none := by
      norm_num [selectLegFinal, idxmin, qEx48, abs, max_def]
    have h50 : selectLegFinal [qEx48] 50 = some (mkPosition qEx48 50) := by
      norm_num [selectLegFinal, idxmin, qEx48, abs, max_def]
    simp only [qEx48] at h10 h50
    norm_num [identify_target_delta_options_final, processExpiryFinal, legsFinal,
      validOptions, sortedKeys, sortInts, insertSorted, dedupInts, isValidOption,
      finalMid, qEx48, h10, h50, List.filterMap_cons]

/-- C2 counterexample: an eligible snapshot whose minimal delta difference
to the 50-delta target is exactly 0.0500 is rejected by the selector (the
source comparison is strict), while the claim states it is accepted. -/
theorem C2_counterexample :
    isValidOption qTol55 = true
    ∧ |qTol55.delta.getD 0 - (50 : ℚ) / 100| = 5 / 100
    ∧ selectLegFinal [qTol55] 50 = none := by
  refine ⟨by norm_num [isValidOption, qTol55, finalMid], ?_, ?_⟩
  · norm_num [qTol55, abs, max_def]
  · norm_num [selectLegFinal, idxmin, qTol55, abs, max_def]

/-- C2 (amended): every position emitted by either selector satisfies the
strict bound |actual_delta - target_delta| < 0.05; the recorded delta error
of a final-selector position is exactly that absolute difference. -/
theorem C2_delta_tolerance_strict :
    (∀ (rows : List Quote) (p : Position),
      p ∈ identify_target_delta_options_final rows →
      p.delta_error < 5 / 100 ∧
      p.delta_error = |p.actual_delta - (p.target_delta : ℚ) / 100|)
    ∧ ∀ (rows : List Quote) (r : SelRow),
      r ∈ identify_target_delta_options_fetcher rows → r.delta_error < 5 / 100 := by
  constructor
  · intro rows p hp
    rcases mem_identifyFinal hp with ⟨g, t, _, hsel⟩
    rcases selectLegFinal_some hsel with ⟨h1, h2, _⟩
    exact ⟨h1, h2⟩
  · intro rows r hr
    exact mem_identifyFetcher hr

/-- The final selector on the scenario chain of the spec emits exactly the
10-delta position at strike 25 and the 50-delta position at strike 20. -/
theorem identifyFinal_chain5 :
    identify_target_delta_options_final chain5 =
      [mkPosition chainQ2 10, mkPosition chainQ3 50] := by
  have hA : selectLegFinal [chainQ1, chainQ2, chainQ3, chainQ4, chainQ5] 10 =
      some (mkPosition chainQ2 10) := by
    norm_num [selectLegFinal, idxmin, chainQ1, chainQ2, chainQ3, chainQ4, chainQ5,
      abs, max_def]
  have hB : selectLegFinal [chainQ1, chainQ2, chainQ3, chainQ4, chainQ5] 50 =
      some (mkPosition chainQ3 50) := by
    norm_num [selectLegFinal, idxmin, chainQ1, chainQ2, chainQ3, chainQ4, chainQ5,
      abs, max_def]
  simp only [chain5, chainQ1, chainQ2, chainQ3, chainQ4, chainQ5] at hA hB ⊢
  norm_num [identify_target_delta_options_final, processExpiryFinal, legsFinal,
    validOptions, sortedKeys, sortInts, insertSorted, dedupInts, isValidOption,
    finalMid, hA, hB, List.filterMap_cons]

/-- C2 witness: the 10-delta position selected from the scenario chain
satisfies the strict tolerance bound. -/
theorem C2_witness :
    (mkPosition chainQ2 10).delta_error < 5 / 100 ∧
    (mkPosition chainQ2 10).delta_error =
      |(mkPosition chainQ2 10).actual_delta -
        ((mkPosition chainQ2 10).target_delta : ℚ) / 100| :=
  C2_delta_tolerance_strict.1 chain5 (mkPosition chainQ2 10)
    (by rw [identifyFinal_chain5]; simp)

/-- C3 counterexample: with two eligible contracts equidistant in delta from
the target, the selector picks the contract listed first (here strike 20)
rather than the lower strike 18, and reversing the input order changes the
selected strike. -/
theorem C3_counterexample :
    |qTie20.delta.getD 0 - (50 : ℚ) / 100| = |qTie18.delta.getD 0 - (50 : ℚ) / 100|
    ∧ qTie18.strike < qTie20.strike
    ∧ selectLegFinal [qTie20, qTie18] 50 = some (mkPosition qTie20 50)
    ∧ (selectLegFinal [qTie20, qTie18] 50).map (fun p => p.strike) ≠
      (selectLegFinal [qTie18, qTie20] 50).map (fun p => p.strike) := by
  refine ⟨?_, ?_, ?_, ?_⟩
  · norm_num [qTie20, qTie18, abs, max_def]
  · norm_num [qTie20, qTie18]
  · norm_num [selectLegFinal, idxmin, mkPosition, quantities, qTie20, qTie18,
      abs, max_def]
  · norm_num [selectLegFinal, idxmin, mkPosition, quantities, qTie20, qTie18,
      abs, max_def]

/-- C3 (amended): on two equidistant-in-delta contracts within tolerance the
selector returns whichever appears first in the input (Series.idxmin keeps
the first minimising row), so the choice follows input order, not strike. -/
theorem C3_tie_break_input_order :
    ∀ (a b : Quote) (t : Nat),
      |a.delta.getD 0 - (t : ℚ) / 100| = |b.delta.getD 0 - (t : ℚ) / 100| →
      |a.delta.getD 0 - (t : ℚ) / 100| < 5 / 100 →
      selectLegFinal [a, b] t = some (mkPosition a t) ∧
      selectLegFinal [b, a] t = some (mkPosition b t) := by
  intro a b t heq htol
  have hba : ¬ (|b.delta.getD 0 - (t : ℚ) / 100| < |a.delta.getD 0 - (t : ℚ) / 100|) := by
    rw [heq]
    exact lt_irrefl _
  have hab : ¬ (|a.delta.getD 0 - (t : ℚ) / 100| < |b.delta.getD 0 - (t : ℚ) / 100|) := by
    rw [heq]
    exact lt_irrefl _
  have htolb : |b.delta.getD 0 - (t : ℚ) / 100| < 5 / 100 := heq ▸ htol
  constructor
  · simp only [selectLegFinal, idxmin, if_neg hba, if_pos htol]
  · simp only [selectLegFinal, idxmin, if_neg hab, if_pos htolb]

/-- C3 witness: on the concrete equidistant pair the selector returns the
first-listed contract in both orders. -/
theorem C3_witness :
    selectLegFinal [qTie20, qTie18] 50 = some (mkPosition qTie20 50) ∧
    selectLegFinal [qTie18, qTie20] 50 = some (mkPosition qTie18 50) :=
  C3_tie_break_input_order qTie20 qTie18 50
    (by norm_num [qTie20, qTie18, abs, max_def])
    (by norm_num [qTie20, qTie18, abs, max_def])

/-- C4 counterexample: a snapshot with known positive delta and volume but
fully unknown price (mid and last both NaN) is selected by the
data-fetcher selector, refuting the claimed only-if price condition for
that selector. -/
theorem C4_counterexample :
    qNoPrice.mid = none ∧ qNoPrice.last = none ∧ finalMid qNoPrice = none
    ∧ (identify_target_delta_options_fetcher [qNoPrice]).map (fun r => r.ticker)
        = [qNoPrice.ticker] := by
  refine ⟨rfl, rfl, rfl, ?_⟩
  norm_num [identify_target_delta_options_fetcher, processExpiryFetcher,
    selectLegFetcher, entryRows, colMin, idxmin, sortedKeys, sortInts,
    insertSorted, dedupInts, fetcherEligible, mkSelRow, qNoPrice, abs, max_def,
    List.filterMap_cons]

/-- C4 (amended): the final-strategy eligibility filter is exactly the
claimed condition (delta known and positive, volume with unknown treated as
0 positive, computed mid-or-last price known and positive); the data-fetcher
filter omits the price condition entirely; and an empty eligible set makes
the leg fail in both selectors. -/
theorem C4_eligibility :
    (∀ q : Quote, isValidOption q = true ↔
      ((∃ d, q.delta = some d ∧ 0 < d) ∧ 0 < q.volume.getD 0 ∧
        ∃ p, finalMid q = some p ∧ 0 < p))
    ∧ (∀ q : Quote, fetcherEligible q = true ↔
      ((∃ d, q.delta = some d ∧ 0 < d) ∧ 0 < q.volume.getD 0))
    ∧ (∀ t : Nat, selectLegFinal [] t = none)
    ∧ processExpiryFetcher [] = [] := by
  refine ⟨?_, ?_, fun t => rfl, rfl⟩
  · intro q
    unfold isValidOption
    cases hd : q.delta <;> cases hm : finalMid q <;>
      simp [hd, hm, Bool.and_eq_true, decide_eq_true_eq, and_assoc]
  · intro q
    unfold fetcherEligible
    cases hd : q.delta <;> simp [hd, Bool.and_eq_true, decide_eq_true_eq]

/-- C4 witness: a fully-quoted snapshot passes the final filter, and the
priceless snapshot passes the data-fetcher filter. -/
theorem C4_witness :
    isValidOption qTie20 = true ∧ fetcherEligible qNoPrice = true :=
  ⟨(C4_eligibility.1 qTie20).mpr
      ⟨⟨12/25, rfl, by norm_num⟩, by norm_num [qTie20],
        ⟨2, by norm_num [finalMid, qTie20], by norm_num⟩⟩,
   (C4_eligibility.2.1 qNoPrice).mpr
      ⟨⟨1/2, rfl, by norm_num⟩, by norm_num [qNoPrice]⟩⟩

/-- C5: if no fetched quote row carries a given symbol and date, then no
daily record of the tracker output carries that symbol and date: the day is
omitted entirely, with no forward-fill or interpolation and no null or zero
P and L stand-in. -/
theorem C5_missing_quote_day_omitted :
    ∀ (m : List ManifestEntry) (qs : List Quote) (sym : String) (d : Int),
      (∀ q ∈ qs, ¬(q.ticker = sym ∧ q.date = d)) →
      ∀ r ∈ track_specific_positions m qs, ¬(r.ticker = sym ∧ r.date = d) := by
  intro m qs sym d hq r hr
  rcases mem_track_iff.mp hr with ⟨q, hqs, e, _, _, _, _, rfl⟩
  exact hq q hqs

/-- C5 witness: on the concrete one-entry run, the record produced carries
no trace of the absent symbol-and-date pair. -/
theorem C5_witness :
    ¬((mkDailyRec q0 e0).ticker = "X" ∧ (mkDailyRec q0 e0).date = 3) :=
  C5_missing_quote_day_omitted [e0] [q0] "X" 3
    (by
      intro q hq
      rcases List.mem_singleton.mp hq with rfl
      simp [q0])
    (mkDailyRec q0 e0)
    (mem_track_iff.mpr
      ⟨q0, List.mem_singleton.mpr rfl, e0, List.mem_singleton.mpr rfl,
        rfl, by decide, by decide, rfl⟩)

/-- C6: every daily record computes price_change as the day mid minus the
entry price, daily_pnl as price_change times the signed quantity times the
hard-coded 100 multiplier, and delta_change as the day delta minus the
entry delta; on the spec scenario (entry 18.50, quantity -1, later mid
16.00) this yields price_change -2.50 and daily_pnl +250. -/
theorem C6_daily_pnl_formulas :
    (∀ (m : List ManifestEntry) (qs : List Quote) (r : DailyRec),
      r ∈ track_specific_positions m qs →
      ∃ q, q ∈ qs ∧ ∃ e, e ∈ m ∧
        r.price_change = osub q.mid e.entry_price ∧
        r.daily_pnl = (osub q.mid e.entry_price).map
          (fun x => x * (e.quantity : ℚ) * 100) ∧
        r.delta_change = osub q.delta e.entry_delta)
    ∧ (track_specific_positions [e0] [q0]).map
        (fun r => (r.price_change, r.daily_pnl))
        = [(some (-(5 : ℚ)/2), some 250)] := by
  constructor
  · intro m qs r hr
    rcases mem_track_iff.mp hr with ⟨q, hqs, e, hm, _, _, _, rfl⟩
    exact ⟨q, hqs, e, hm, rfl, rfl, rfl⟩
  · norm_num [track_specific_positions, mkDailyRec, osub, e0, q0]

/-- C6 witness: the formulas instantiated on the concrete scenario record. -/
theorem C6_witness :
    ∃ q, q ∈ [q0] ∧ ∃ e, e ∈ [e0] ∧
      (mkDailyRec q0 e0).price_change = osub q.mid e.entry_price ∧
      (mkDailyRec q0 e0).daily_pnl = (osub q.mid e.entry_price).map
        (fun x => x * (e.quantity : ℚ) * 100) ∧
      (mkDailyRec q0 e0).delta_change = osub q.delta e.entry_delta :=
  C6_daily_pnl_formulas.1 [e0] [q0] (mkDailyRec q0 e0)
    (mem_track_iff.mpr
      ⟨q0, List.mem_singleton.mpr rfl, e0, List.mem_singleton.mpr rfl,
        rfl, by decide, by decide, rfl⟩)

/-- C7: every daily record produced from a built manifest lies inside the
holding window [entry_date, roll_date] of a manifest entry of its ticker,
and that roll date is the expiry date minus one calendar day. -/
theorem C7_holding_window :
    ∀ (ctx : RunCtx) (rows : List SelRow) (qs : List Quote) (r : DailyRec),
      r ∈ track_specific_positions (create_position_tracking_manifest ctx rows) qs →
      ∃ e, e ∈ create_position_tracking_manifest ctx rows ∧ r.ticker = e.ticker ∧
        e.entry_date ≤ r.date ∧ r.date ≤ e.roll_date ∧
        e.roll_date = e.expiry_date - 1 := by
  intro ctx rows qs r hr
  rcases mem_track_iff.mp hr with ⟨q, _, e, hm, ht, h1, h2, rfl⟩
  exact ⟨e, hm, ht.symm, h1, h2, manifest_roll_date hm⟩

/-- C7 witness: the window property instantiated on a concrete record built
from the concrete selection row sr0 (entry day 10, expiry ordinal 100, roll
99, quote day 50). -/
theorem C7_witness :
    ∃ e, e ∈ create_position_tracking_manifest ctx0 [sr0] ∧
      (mkDailyRec qW (entryOfRow sr0)).ticker = e.ticker ∧
      e.entry_date ≤ (mkDailyRec qW (entryOfRow sr0)).date ∧
      (mkDailyRec qW (entryOfRow sr0)).date ≤ e.roll_date ∧
      e.roll_date = e.expiry_date - 1 :=
  C7_holding_window ctx0 [sr0] [qW] (mkDailyRec qW (entryOfRow sr0))
    (mem_track_iff.mpr
      ⟨qW, List.mem_singleton.mpr rfl, entryOfRow sr0,
        by simp [create_position_tracking_manifest],
        rfl, by decide, by decide, rfl⟩)

/-- C8: every entry of the generated expiry calendar is the third Wednesday
of its month, computed by the first-Wednesday-plus-14-days rule: it falls on
a Wednesday (Python weekday 2) with day-of-month in [15, 21] for every month
and year; the month 2025-08 yields 2025-08-20. -/
theorem C8_third_wednesday_calendar :
    (∀ (fuel : Nat) (y m stop : Int) (e : ExpiryEntry),
      e ∈ get_vix_expiry_calendar fuel y m stop →
      e.expiry_date = thirdWedOrdinal e.year e.month ∧
      e.expiry_date = toordinal e.year e.month (thirdWedDom e.year e.month) ∧
      pyWeekday e.expiry_date = 2 ∧
      15 ≤ thirdWedDom e.year e.month ∧ thirdWedDom e.year e.month ≤ 21)
    ∧ thirdWedOrdinal 2025 8 = toordinal 2025 8 20 := by
  constructor
  · intro fuel y m stop e he
    have h1 := calendar_entry_expiry fuel y m stop e he
    refine ⟨h1, ?_, ?_, (thirdWedDom_bounds e.year e.month).1,
      (thirdWedDom_bounds e.year e.month).2⟩
    · rw [h1, thirdWed_eq_toordinal]
    · rw [h1]
      exact pyWeekday_thirdWed _ _
  · decide

/-- C8 witness: the calendar run over August and September 2025 contains
the August entry, which satisfies all the stated properties. -/
theorem C8_witness :
    e2025aug.expiry_date = thirdWedOrdinal e2025aug.year e2025aug.month ∧
    e2025aug.expiry_date =
      toordinal e2025aug.year e2025aug.month
        (thirdWedDom e2025aug.year e2025aug.month) ∧
    pyWeekday e2025aug.expiry_date = 2 ∧
    15 ≤ thirdWedDom e2025aug.year e2025aug.month ∧
    thirdWedDom e2025aug.year e2025aug.month ≤ 21 :=
  C8_third_wednesday_calendar.1 3 2025 8 (toordinal 2025 9 1) e2025aug (by decide)

/-- C9: the manifest builder is a pure function of the selection rows: it
does not read the run clock, and rebuilding from equal row sets yields
identical entries. -/
theorem C9_manifest_deterministic :
    ∀ (ctx ctx2 : RunCtx) (rows rows2 : List SelRow),
      rows = rows2 →
      create_position_tracking_manifest ctx rows =
        create_position_tracking_manifest ctx2 rows2 := by
  intro ctx ctx2 rows rows2 h
  cases h
  rfl

/-- C9 witness: two runs with different clocks over the same rows build the
same entries. -/
theorem C9_witness :
    create_position_tracking_manifest { now := 0 } [sr0] =
      create_position_tracking_manifest { now := 999 } [sr0] :=
  C9_manifest_deterministic { now := 0 } { now := 999 } [sr0] [sr0] rfl

/-- C10: on every row built by the selector from a fetched quote (where the
extraction always writes the mid key), the manifest entry price equals the
mid value even when it is NaN: the dict-get fallback to the last price
never fires for such rows (a NaN mid with a known last still yields a NaN
entry price), and it fires only when the mid key is absent altogether. -/
theorem C10_entry_price_is_mid_even_when_nan :
    (∀ (q : Quote) (t : Nat) (d0 : Int),
      (entryOfRow (mkSelRow q t d0)).entry_price = q.mid)
    ∧ (entryOfRow (mkSelRow qMidNaN 50 0)).entry_price = none
    ∧ qMidNaN.last = some 5
    ∧ (entryOfRow srAbsentMid).entry_price = some 7 :=
  ⟨fun _ _ _ => rfl, rfl, rfl, rfl⟩

end BloombergData
